import Mathlib

/-!
Verification of the SMART-over-SCSI Nagios check (check_scsi_smart v1.2.2).

This file gives a shallow embedding of the program's SMART data model and
evaluation logic:

* `smart_attribute`, `smart_threshold`, `smart_log_summary` mirror the packed
  wire structures of smart.h (only the fields the program consults are kept;
  machine integers become `Nat`, with explicit masking where the code masks).
* `mkSmartAttribute` mirrors the `SmartAttribute` constructor of smart.cc,
  including the vendor-quirk raw-value masking.
* `processSlot` mirrors the body of the per-slot loop of
  `check_smart_attributes` in check_scsi_smart.cc; `check_smart_attributes`
  folds it over the 30 slots and applies the final return-code update.
* `check_smart_log` mirrors `check_smart_log`, with the transport reads it
  issues made explicit as a trace of `AtaOp`s.
* `runCheck` mirrors `main` from the first transport command onwards.
* `reportLine` mirrors the final output statement of `main`.

Theorems `c1_…` to `c10_…` settle the corresponding claims about this code.
-/

namespace CheckScsiSmart

/-- Nagios return code OK (check_scsi_smart.cc). -/
def NAGIOS_OK : Nat := 0

/-- Nagios return code WARNING. -/
def NAGIOS_WARNING : Nat := 1

/-- Nagios return code CRITICAL. -/
def NAGIOS_CRITICAL : Nat := 2

/-- Nagios return code UNKNOWN. -/
def NAGIOS_UNKNOWN : Nat := 3

/-- ATA log address of the log directory (ata.h). -/
def ATA_LOG_ADDRESS_DIRECTORY : Nat := 0

/-- ATA log address of the SMART summary log (ata.h). -/
def ATA_LOG_ADDRESS_SMART : Nat := 1

/-- smart.h `smart_attribute`: one packed on-wire SMART attribute slot.
Machine-width fields become `Nat`: `id` is a uint8_t, `flags` a uint16_t,
`value` and `worst` uint8_t, `raw_lo` a uint32_t and `raw_hi` a uint16_t
(the trailing `pad` byte is never consulted and is omitted). -/
structure smart_attribute where
  id : Nat
  flags : Nat
  value : Nat
  worst : Nat
  raw_lo : Nat
  raw_hi : Nat
deriving DecidableEq

/-- smart.h `smart_threshold`: one packed on-wire SMART threshold slot
(`pad` bytes omitted, never consulted). -/
structure smart_threshold where
  id : Nat
  threshold : Nat
deriving DecidableEq

/-- smart.h `smart_log_summary`: one 512-byte SMART summary-log sector.
Only the fields the program consults are modelled: the `version` byte, the
`index` byte and the 16-bit error `count` (the five error-data records,
reserved bytes and checksum are never read by check_smart_log). -/
structure smart_log_summary where
  version : Nat
  index : Nat
  count : Nat
deriving DecidableEq

/-- smart.h class `SmartAttribute`: the decoded attribute held by the
program after construction from a `smart_attribute`. -/
structure SmartAttribute where
  id : Nat
  pre_fail : Bool
  offline : Bool
  value : Nat
  raw : Nat
deriving DecidableEq

/-- smart.cc `SmartAttribute::SmartAttribute(const smart_attribute&)`:
decodes a raw slot.  `pre_fail` is `flags & 0x1`, `offline` is
`flags & 0x2`, and the 48-bit raw value is assembled as
`(raw_hi << 32) | raw_lo` and then masked by id exactly as the
constructor's switch does. -/
def mkSmartAttribute (a : smart_attribute) : SmartAttribute :=
  { id := a.id
    pre_fail := a.flags &&& 0x1 != 0
    offline := a.flags &&& 0x2 != 0
    value := a.value
    raw :=
      let raw := (a.raw_hi <<< 32) ||| a.raw_lo
      if a.id = 3 ∨ a.id = 5 ∨ a.id = 196 then raw &&& 0xffff
      else if a.id = 9 ∨ a.id = 240 then raw &&& 0xffffff
      else if a.id = 190 ∨ a.id = 194 then raw &&& 0xff
      else raw }

/-- smart.h `SmartAttribute::idValid()`: a slot id of 0 marks an unused slot. -/
def SmartAttribute.idValid (a : SmartAttribute) : Bool :=
  a.id != 0

/-- smart.h `SmartAttribute::valueValid()`: `value > 0x0 && value < 0xfe`. -/
def SmartAttribute.valueValid (a : SmartAttribute) : Bool :=
  decide (0x0 < a.value) && decide (a.value < 0xfe)

/-- smart.h class `SmartThreshold`: the decoded vendor threshold byte. -/
structure SmartThreshold where
  threshold : Nat
deriving DecidableEq

/-- smart.h `SmartThreshold::SmartThreshold(const smart_threshold&)`. -/
def mkSmartThreshold (t : smart_threshold) : SmartThreshold :=
  { threshold := t.threshold }

/-- smart.h `SmartThreshold::getThreshold()`. -/
def SmartThreshold.getThreshold (t : SmartThreshold) : Nat :=
  t.threshold

/-- smart.cc `SmartAttribute::operator<=(const SmartThreshold&)`:
compares the normalized value against the vendor threshold byte. -/
def SmartAttribute.leThreshold (a : SmartAttribute) (t : SmartThreshold) : Bool :=
  decide (a.value ≤ t.getThreshold)

/-- smart.cc: the static `labels` table of `operator<<(ostream&, const
SmartAttribute&)`; 256 attribute names indexed by attribute id. -/
def labels : List String := [
  "unknown",
  "read_error_rate",
  "throughput_performance",
  "spin_up_time",
  "start_stop_count",
  "reallocated_sectors_count",
  "read_channel_margin",
  "seek_error_rate",
  "seek_time_performance",
  "power_on_hours",
  "spin_retry_count",
  "recalibration_retries",
  "power_cycle_count",
  "soft_read_error_rate",
  "unknown",
  "unknown",
  "unknown",
  "unknown",
  "unknown",
  "unknown",
  "unknown",
  "unknown",
  "unknown",
  "unknown",
  "current_helium_level",
  "unknown",
  "unknown",
  "unknown",
  "unknown",
  "unknown",
  "unknown",
  "unknown",
  "unknown",
  "unknown",
  "unknown",
  "unknown",
  "unknown",
  "unknown",
  "unknown",
  "unknown",
  "unknown",
  "unknown",
  "unknown",
  "unknown",
  "unknown",
  "unknown",
  "unknown",
  "unknown",
  "unknown",
  "unknown",
  "unknown",
  "unknown",
  "unknown",
  "unknown",
  "unknown",
  "unknown",
  "unknown",
  "unknown",
  "unknown",
  "unknown",
  "unknown",
  "unknown",
  "unknown",
  "unknown",
  "unknown",
  "unknown",
  "unknown",
  "unknown",
  "unknown",
  "unknown",
  "unknown",
  "unknown",
  "unknown",
  "unknown",
  "unknown",
  "unknown",
  "unknown",
  "unknown",
  "unknown",
  "unknown",
  "unknown",
  "unknown",
  "unknown",
  "unknown",
  "unknown",
  "unknown",
  "unknown",
  "unknown",
  "unknown",
  "unknown",
  "unknown",
  "unknown",
  "unknown",
  "unknown",
  "unknown",
  "unknown",
  "unknown",
  "unknown",
  "unknown",
  "unknown",
  "unknown",
  "unknown",
  "unknown",
  "unknown",
  "unknown",
  "unknown",
  "unknown",
  "unknown",
  "unknown",
  "unknown",
  "unknown",
  "unknown",
  "unknown",
  "unknown",
  "unknown",
  "unknown",
  "unknown",
  "unknown",
  "unknown",
  "unknown",
  "unknown",
  "unknown",
  "unknown",
  "unknown",
  "unknown",
  "unknown",
  "unknown",
  "unknown",
  "unknown",
  "unknown",
  "unknown",
  "unknown",
  "unknown",
  "unknown",
  "unknown",
  "unknown",
  "unknown",
  "unknown",
  "unknown",
  "unknown",
  "unknown",
  "unknown",
  "unknown",
  "unknown",
  "unknown",
  "unknown",
  "unknown",
  "unknown",
  "unknown",
  "unknown",
  "unknown",
  "unknown",
  "unknown",
  "unknown",
  "unknown",
  "unknown",
  "unknown",
  "unknown",
  "unknown",
  "unknown",
  "unknown",
  "unknown",
  "unknown",
  "unknown",
  "unknown",
  "unknown",
  "unknown",
  "unknown",
  "unknown",
  "unknown",
  "available_reserved_space",
  "ssd_program_fail_count",
  "ssd_erase_fail_count",
  "ssd_wear_leveling_count",
  "unexpected_power_loss_count",
  "power_loss_protection_failure",
  "erase_fail_count",
  "wear_range_delta",
  "unknown",
  "used_reserved_block_count_total",
  "unused_reserved_block_count_total",
  "program_fail_count_total",
  "erase_fail_count",
  "sata_downshift_error_count",
  "end_to_end_error",
  "head_stability",
  "induced_op_vibration_detection",
  "reported_uncorrectable_errors",
  "command_timeout",
  "high_fly_writes",
  "airflow_temperature",
  "g_sense_error_rate",
  "power_off_retract_count",
  "load_cycle_count",
  "temperature",
  "hardware_ecc_recovered",
  "reallocation_event_count",
  "current_pending_sector_count",
  "uncorrectable_sector_count",
  "ultradma_crc_error_count",
  "multi_zone_error_rate",
  "soft_read_error_rate",
  "data_address_mark_errors",
  "run_out_cancel",
  "soft_ecc_correction",
  "thermal_asperity_rate",
  "flying_height",
  "spin_height_current",
  "spin_buzz",
  "offline_seek_performance",
  "vibration_during_write",
  "vibration_during_write",
  "shock_during_write",
  "unknown",
  "unknown",
  "unknown",
  "unknown",
  "unknown",
  "unknown",
  "unknown",
  "disk_shift",
  "g_sense_error_rate",
  "loaded_hours",
  "load_unload_retry_count",
  "load_friction",
  "load_unload_cycle_count",
  "load_in_time",
  "torque_amplification_count",
  "power_off_retract_cycle",
  "unknown",
  "drive_life_protection_status",
  "temperature",
  "available_reserved_space",
  "media_wearout_indicator",
  "average_erase_count",
  "good_block_count",
  "unknown",
  "unknown",
  "unknown",
  "unknown",
  "flying_head_hours",
  "total_lbas_written",
  "total_lbas_read",
  "total_lbas_written_expanded",
  "total_lbas_read_expanded",
  "unknown",
  "unknown",
  "unknown",
  "unknown",
  "nand_writes_1gib",
  "read_error_retry_rate",
  "minimum_spares_remaining",
  "newly_added_bad_flash_block",
  "unknown",
  "free_fall_protection",
  "unknown"]

/-- smart.cc `operator<<(ostream&, const SmartAttribute&)`: renders
`<id>_<name>=<raw>` in decimal.  The id is a uint8_t so the table access
`labels[attribute.id]` is always in bounds; the `getD` default is the
table's own filler name. -/
def smartAttributeToString (a : SmartAttribute) : String :=
  toString a.id ++ "_" ++ labels.getD a.id "unknown" ++ "=" ++ toString a.raw

/-- check_scsi_smart.cc `SmartThresholdMap`: `std::map<uint8_t, uint64_t>`,
modelled as an association list from attribute id to override level. -/
abbrev SmartThresholdMap := List (Nat × Nat)

/-- Observable behaviour of `std::map::operator[]` as used by
`check_smart_attributes`: a key that is absent reads as the
value-initialized 0. -/
def SmartThresholdMap.get (m : SmartThresholdMap) (id : Nat) : Nat :=
  (List.lookup id m).getD 0

/-- The mutable per-run evaluation state threaded through
`check_smart_attributes`: the four counters and the accumulated
performance-data string. -/
structure CheckState where
  prdfail : Nat
  advisory : Nat
  crit : Nat
  warn : Nat
  perfdata : String
deriving DecidableEq

/-- check_scsi_smart.cc, vendor-threshold step of the slot loop:
`if(attribute.valueValid() && (attribute <= threshold))` increment
`prdfail` when the pre-fail flag bit is set, else `advisory`. -/
def vendorStep (attr : SmartAttribute) (threshold : SmartThreshold) (s : CheckState) : CheckState :=
  if attr.valueValid && attr.leThreshold threshold then
    if attr.pre_fail then { s with prdfail := s.prdfail + 1 }
    else { s with advisory := s.advisory + 1 }
  else s

/-- check_scsi_smart.cc, custom-threshold step of the slot loop:
`if(crit_threshold && raw >= crit_threshold) crit++; else
if(warn_threshold && raw >= warn_threshold) warn++;` where the two levels
are the `operator[]` lookups of the attribute id. -/
def customStep (crit_threshold warn_threshold : Nat) (attr : SmartAttribute) (s : CheckState) : CheckState :=
  if crit_threshold != 0 && decide (attr.raw ≥ crit_threshold) then
    { s with crit := s.crit + 1 }
  else if warn_threshold != 0 && decide (attr.raw ≥ warn_threshold) then
    { s with warn := s.warn + 1 }
  else s

/-- check_scsi_smart.cc, performance-data step of the slot loop:
`perfdata << " " << attribute << ";" <<(warn) << ";" <<(crit) << ";;"`,
the two override fields printed only when their level is non-zero. -/
def perfStep (crit_threshold warn_threshold : Nat) (attr : SmartAttribute) (s : CheckState) : CheckState :=
  { s with perfdata := s.perfdata ++ " " ++ smartAttributeToString attr ++ ";"
      ++ (if warn_threshold != 0 then toString warn_threshold else "") ++ ";"
      ++ (if crit_threshold != 0 then toString crit_threshold else "") ++ ";;" }

/-- check_scsi_smart.cc: one iteration of the 30-slot loop of
`check_smart_attributes`: decode the slot, skip it if the id is invalid,
then vendor check, custom check and performance-data accumulation. -/
def processSlot (critical_thresholds warning_thresholds : SmartThresholdMap)
    (sa : smart_attribute) (sth : smart_threshold) (s : CheckState) : CheckState :=
  let attr := mkSmartAttribute sa
  let threshold := mkSmartThreshold sth
  if !attr.idValid then s
  else
    let crit_threshold := critical_thresholds.get attr.id
    let warn_threshold := warning_thresholds.get attr.id
    perfStep crit_threshold warn_threshold attr
      (customStep crit_threshold warn_threshold attr
        (vendorStep attr threshold s))

/-- check_scsi_smart.cc: the final return-code update of
`check_smart_attributes`: `if(advisory || warn) code = max(code, WARNING);
if(prdfail || crit) code = max(code, CRITICAL);`. -/
def attributesCode (code : Nat) (s : CheckState) : Nat :=
  let code := if s.advisory ≠ 0 ∨ s.warn ≠ 0 then max code NAGIOS_WARNING else code
  if s.prdfail ≠ 0 ∨ s.crit ≠ 0 then max code NAGIOS_CRITICAL else code

/-- check_scsi_smart.cc `check_smart_attributes`: fold the slot loop over
the attribute/threshold tables (paired by array position) and apply the
final return-code update. -/
def check_smart_attributes (critical_thresholds warning_thresholds : SmartThresholdMap)
    (sd : List smart_attribute) (st : List smart_threshold)
    (code : Nat) (s : CheckState) : Nat × CheckState :=
  let s := (sd.zip st).foldl
    (fun s p => processSlot critical_thresholds warning_thresholds p.1 p.2 s) s
  (attributesCode code s, s)

/-- One ATA command issued over the SCSI transport (the four shapes built
by the `ata_*` helpers of check_scsi_smart.cc). -/
inductive AtaOp where
  | identify
  | readData
  | readThresholds
  | readLog (address sectors : Nat)
deriving DecidableEq

/-- check_scsi_smart.cc: the `if(logs) code = max(code, WARNING)` update at
the end of `check_smart_log`. -/
def logCode (code logs : Nat) : Nat :=
  if logs ≠ 0 then max code NAGIOS_WARNING else code

/-- check_scsi_smart.cc `check_smart_log`: read the log directory, and if
the SMART-log entry is zero return at once; otherwise read that many
summary sectors and add the `count` of every sector whose `index` byte is
non-zero.  `dir` is the decoded directory (entry per log address),
`readLog` the transport read of `sectors` summary sectors at a log
address; the third component of the result is the trace of transport
reads issued. -/
def check_smart_log (dir : Nat → Nat)
    (readLog : Nat → Nat → List smart_log_summary)
    (code logs : Nat) : Nat × Nat × List AtaOp :=
  let ops := [AtaOp.readLog ATA_LOG_ADDRESS_DIRECTORY 1]
  let smart_log_sectors := dir ATA_LOG_ADDRESS_SMART
  if smart_log_sectors = 0 then (code, logs, ops)
  else
    let summaries := readLog ATA_LOG_ADDRESS_SMART smart_log_sectors
    let ops := ops ++ [AtaOp.readLog ATA_LOG_ADDRESS_SMART smart_log_sectors]
    let logs := summaries.foldl
      (fun acc su => if su.index = 0 then acc else acc + su.count) logs
    (logCode code logs, logs, ops)

/-- check_scsi_smart.cc: the `status` table of `main`. -/
def statusNames : List String := ["OK", "WARNING", "CRITICAL"]

/-- check_scsi_smart.cc: the final output statement of `main`
(the text written before the terminating `endl`). -/
def reportLine (code prdfail advisory crit warn logs : Nat) (perfdata : String) : String :=
  statusNames.getD code "" ++ ": prdfail " ++ toString prdfail
    ++ ", advisory " ++ toString advisory
    ++ ", critical " ++ toString crit
    ++ ", warning " ++ toString warn
    ++ ", logs " ++ toString logs
    ++ " |" ++ perfdata

/-- The device as seen through the transport: whether the IDENTIFY
pass-through reports success, the IDENTIFY page (16-bit words), the
attribute and threshold tables, the log directory and the summary-log
sectors. -/
structure Device where
  identify_ok : Bool
  identify : Nat → Nat
  sd : List smart_attribute
  st : List smart_threshold
  dir : Nat → Nat
  readLog : Nat → Nat → List smart_log_summary

/-- check_scsi_smart.cc `main`, from the first transport command onwards
(after option parsing, device open and the sg version check): IDENTIFY,
the two feature-bit gates, then the attribute and log checks.  Returns
the exit code and the trace of ATA commands issued.  The C expression
`~identify[w] & 0x01` on a uint16_t word is modelled as
`(identify w ^^^ 0xffff) &&& 0x01` (one's complement of the low 16 bits;
only bit 0 is consulted). -/
def runCheck (critical_thresholds warning_thresholds : SmartThresholdMap)
    (dev : Device) : Nat × List AtaOp :=
  let ops := [AtaOp.identify]
  if !dev.identify_ok then (NAGIOS_OK, ops)
  else if ((dev.identify 82) ^^^ 0xffff) &&& 0x01 ≠ 0 then (NAGIOS_OK, ops)
  else if ((dev.identify 85) ^^^ 0xffff) &&& 0x01 ≠ 0 then (NAGIOS_UNKNOWN, ops)
  else
    let r := check_smart_attributes critical_thresholds warning_thresholds
      dev.sd dev.st NAGIOS_OK ⟨0, 0, 0, 0, ""⟩
    let ops := ops ++ [AtaOp.readData, AtaOp.readThresholds]
    let l := check_smart_log dev.dir dev.readLog r.1 0
    (l.1, ops ++ l.2.2)

/-- Spec-side rendering of one performance-data entry for a slot, following
the report-format contract: `none` for an unused slot, otherwise
`<id>_<name>=<rawValue>;<warnThreshold|empty>;<critThreshold|empty>;;`
(preceded by the separating space), a threshold field left empty when no
override with a non-zero level applies to the id. -/
def specPerfEntry (critical_thresholds warning_thresholds : SmartThresholdMap)
    (p : smart_attribute × smart_threshold) : Option String :=
  if p.1.id = 0 then none
  else
    let a := mkSmartAttribute p.1
    let wt := warning_thresholds.get p.1.id
    let ct := critical_thresholds.get p.1.id
    some (" " ++ toString a.id ++ "_" ++ labels.getD a.id "unknown"
      ++ "=" ++ toString a.raw ++ ";"
      ++ (if wt ≠ 0 then toString wt else "") ++ ";"
      ++ (if ct ≠ 0 then toString ct else "") ++ ";;")

/-- Spec-side rendering of the counter block exactly as claim C5 words it:
`predicted fails <n>, advisories <n>, critical <n>, warning <n>, logs <n>`. -/
def specCounterText (prdfail advisory crit warn logs : Nat) : String :=
  "predicted fails " ++ toString prdfail
    ++ ", advisories " ++ toString advisory
    ++ ", critical " ++ toString crit
    ++ ", warning " ++ toString warn
    ++ ", logs " ++ toString logs

/-- Spec-side error-log total: the sum of the `count` fields of exactly
those summary sectors whose `index` byte is non-zero. -/
def validLogCount (l : List smart_log_summary) : Nat :=
  ((l.filter fun su => su.index != 0).map fun su => su.count).sum

/-! ### Helper lemmas -/

theorem vendorStep_crit (a : SmartAttribute) (t : SmartThreshold) (s : CheckState) :
    (vendorStep a t s).crit = s.crit := by
  unfold vendorStep; split_ifs <;> rfl

theorem vendorStep_warn (a : SmartAttribute) (t : SmartThreshold) (s : CheckState) :
    (vendorStep a t s).warn = s.warn := by
  unfold vendorStep; split_ifs <;> rfl

theorem vendorStep_perfdata (a : SmartAttribute) (t : SmartThreshold) (s : CheckState) :
    (vendorStep a t s).perfdata = s.perfdata := by
  unfold vendorStep; split_ifs <;> rfl

theorem vendorStep_sum (a : SmartAttribute) (t : SmartThreshold) (s : CheckState) :
    (vendorStep a t s).prdfail + (vendorStep a t s).advisory
      = s.prdfail + s.advisory
        + (if a.valueValid && a.leThreshold t then 1 else 0) := by
  unfold vendorStep; split_ifs <;> simp <;> omega

theorem customStep_prdfail (ct wt : Nat) (a : SmartAttribute) (s : CheckState) :
    (customStep ct wt a s).prdfail = s.prdfail := by
  unfold customStep; split_ifs <;> rfl

theorem customStep_advisory (ct wt : Nat) (a : SmartAttribute) (s : CheckState) :
    (customStep ct wt a s).advisory = s.advisory := by
  unfold customStep; split_ifs <;> rfl

theorem customStep_perfdata (ct wt : Nat) (a : SmartAttribute) (s : CheckState) :
    (customStep ct wt a s).perfdata = s.perfdata := by
  unfold customStep; split_ifs <;> rfl

theorem perfStep_prdfail (ct wt : Nat) (a : SmartAttribute) (s : CheckState) :
    (perfStep ct wt a s).prdfail = s.prdfail := rfl

theorem perfStep_advisory (ct wt : Nat) (a : SmartAttribute) (s : CheckState) :
    (perfStep ct wt a s).advisory = s.advisory := rfl

theorem perfStep_crit (ct wt : Nat) (a : SmartAttribute) (s : CheckState) :
    (perfStep ct wt a s).crit = s.crit := rfl

theorem perfStep_warn (ct wt : Nat) (a : SmartAttribute) (s : CheckState) :
    (perfStep ct wt a s).warn = s.warn := rfl

theorem mkSmartAttribute_id (a : smart_attribute) : (mkSmartAttribute a).id = a.id := rfl

theorem mkSmartAttribute_value (a : smart_attribute) : (mkSmartAttribute a).value = a.value := rfl

theorem mkSmartThreshold_threshold (t : smart_threshold) :
    (mkSmartThreshold t).threshold = t.threshold := rfl

/-- The vendor-check step increments exactly one of `prdfail`/`advisory`
precisely when the value is strictly between the sentinels and does not
exceed the vendor threshold byte. -/
theorem vendorStep_sum_prop (a : SmartAttribute) (t : SmartThreshold) (s : CheckState) :
    (vendorStep a t s).prdfail + (vendorStep a t s).advisory
      = s.prdfail + s.advisory
        + (if 0 < a.value ∧ a.value < 0xfe ∧ a.value ≤ t.threshold then 1 else 0) := by
  unfold vendorStep SmartAttribute.valueValid SmartAttribute.leThreshold SmartThreshold.getThreshold
  split_ifs <;> simp_all <;> omega

/-- Case analysis of the custom-threshold step: critical first, warning
only if critical did not fire, nothing otherwise. -/
theorem customStep_cases (ct wt : Nat) (a : SmartAttribute) (s : CheckState) :
    ((ct ≠ 0 ∧ a.raw ≥ ct) → customStep ct wt a s = { s with crit := s.crit + 1 })
    ∧ (¬ (ct ≠ 0 ∧ a.raw ≥ ct) → (wt ≠ 0 ∧ a.raw ≥ wt) →
        customStep ct wt a s = { s with warn := s.warn + 1 })
    ∧ (¬ (ct ≠ 0 ∧ a.raw ≥ ct) → ¬ (wt ≠ 0 ∧ a.raw ≥ wt) →
        customStep ct wt a s = s) := by
  have hcond : ∀ c : Nat, ((c != 0 && decide (a.raw ≥ c)) = true) ↔ (c ≠ 0 ∧ a.raw ≥ c) := by
    intro c; simp
  unfold customStep
  refine ⟨fun h => ?_, fun hn h => ?_, fun hn hn2 => ?_⟩
  · rw [if_pos ((hcond _).mpr h)]
  · rw [if_neg (fun hc => hn ((hcond _).mp hc)), if_pos ((hcond _).mpr h)]
  · rw [if_neg (fun hc => hn ((hcond _).mp hc)), if_neg (fun hc => hn2 ((hcond _).mp hc))]

/-- A zero critical level never increments the critical counter, whatever
the warning level does. -/
theorem customStep_crit_zero (wt : Nat) (a : SmartAttribute) (s : CheckState) :
    (customStep 0 wt a s).crit = s.crit := by
  unfold customStep
  split_ifs <;> simp_all

/-- A zero warning level never increments the warning counter, whatever
the critical level does. -/
theorem customStep_warn_zero (ct : Nat) (a : SmartAttribute) (s : CheckState) :
    (customStep ct 0 a s).warn = s.warn := by
  unfold customStep
  split_ifs <;> simp_all

/-- An unused slot (id 0) is skipped: the loop body returns the state as is. -/
theorem processSlot_id_zero (critical_thresholds warning_thresholds : SmartThresholdMap)
    (sa : smart_attribute) (sth : smart_threshold) (s : CheckState)
    (hid : sa.id = 0) :
    processSlot critical_thresholds warning_thresholds sa sth s = s := by
  unfold processSlot
  simp [mkSmartAttribute, SmartAttribute.idValid, hid]

/-- A used slot (id non-zero) runs all three steps of the loop body. -/
theorem processSlot_id_ne_zero (critical_thresholds warning_thresholds : SmartThresholdMap)
    (sa : smart_attribute) (sth : smart_threshold) (s : CheckState)
    (hid : sa.id ≠ 0) :
    processSlot critical_thresholds warning_thresholds sa sth s
      = perfStep (critical_thresholds.get sa.id) (warning_thresholds.get sa.id)
          (mkSmartAttribute sa)
          (customStep (critical_thresholds.get sa.id) (warning_thresholds.get sa.id)
            (mkSmartAttribute sa)
            (vendorStep (mkSmartAttribute sa) (mkSmartThreshold sth) s)) := by
  unfold processSlot
  simp only [mkSmartAttribute, SmartAttribute.idValid]
  simp [hid]

/-! ### Claim theorems -/

/-- Claim C1: for every decoded SMART attribute (with its 32-bit low raw
part in range), the raw value exposed for display and custom-threshold
comparison equals the 48-bit value assembled as `(raw_hi << 32) | raw_lo`,
masked by id: ids 3, 5 and 196 keep only the low 16 bits; ids 9 and 240
only the low 24 bits; ids 190 and 194 only the low 8 bits; every other id
keeps the full value unmasked. -/
theorem c1_raw_masking (a : smart_attribute) (hlo : a.raw_lo < 2 ^ 32) :
    (mkSmartAttribute a).raw =
      (if a.id = 3 ∨ a.id = 5 ∨ a.id = 196 then (a.raw_hi * 2 ^ 32 + a.raw_lo) % 2 ^ 16
       else if a.id = 9 ∨ a.id = 240 then (a.raw_hi * 2 ^ 32 + a.raw_lo) % 2 ^ 24
       else if a.id = 190 ∨ a.id = 194 then (a.raw_hi * 2 ^ 32 + a.raw_lo) % 2 ^ 8
       else a.raw_hi * 2 ^ 32 + a.raw_lo) := by
  have hor : (a.raw_hi <<< 32) ||| a.raw_lo = a.raw_hi * 2 ^ 32 + a.raw_lo := by
    rw [Nat.shiftLeft_eq, Nat.mul_comm a.raw_hi (2 ^ 32), ← Nat.mul_add_lt_is_or hlo a.raw_hi,
      Nat.mul_comm]
  have h16 : (0xffff : Nat) = 2 ^ 16 - 1 := by norm_num
  have h24 : (0xffffff : Nat) = 2 ^ 24 - 1 := by norm_num
  have h8 : (0xff : Nat) = 2 ^ 8 - 1 := by norm_num
  simp only [mkSmartAttribute, hor, h16, h24, h8, Nat.and_pow_two_sub_one_eq_mod]

/-- Witness for C1 at a concrete input: id 3 masks `(1 << 32) | 5` down to 5. -/
theorem c1_raw_masking_witness :
    (5 : Nat) < 2 ^ 32 ∧ (mkSmartAttribute ⟨3, 0, 100, 0, 5, 1⟩).raw = 5 := by
  refine ⟨by norm_num, ?_⟩
  rw [c1_raw_masking ⟨3, 0, 100, 0, 5, 1⟩ (by norm_num)]
  norm_num

/-- Claim C3: the aggregate severity update of `check_smart_attributes` is
the max of the incoming code with CRITICAL when `prdfail` or `crit` is
non-zero, else WARNING when `advisory` or `warn` is non-zero, else OK
(so with an incoming OK it equals exactly that case analysis), and neither
the attribute evaluation nor the error-log check ever lowers the incoming
code. -/
theorem c3_aggregate_severity (critical_thresholds warning_thresholds : SmartThresholdMap)
    (sd : List smart_attribute) (st : List smart_threshold)
    (code : Nat) (s : CheckState) (logs : Nat) :
    (check_smart_attributes critical_thresholds warning_thresholds sd st code s).1
      = attributesCode code
          ((sd.zip st).foldl
            (fun s p => processSlot critical_thresholds warning_thresholds p.1 p.2 s) s)
    ∧ attributesCode code s
      = max code (if s.prdfail ≠ 0 ∨ s.crit ≠ 0 then NAGIOS_CRITICAL
          else if s.advisory ≠ 0 ∨ s.warn ≠ 0 then NAGIOS_WARNING else NAGIOS_OK)
    ∧ attributesCode NAGIOS_OK s
      = (if s.prdfail ≠ 0 ∨ s.crit ≠ 0 then NAGIOS_CRITICAL
          else if s.advisory ≠ 0 ∨ s.warn ≠ 0 then NAGIOS_WARNING else NAGIOS_OK)
    ∧ code ≤ attributesCode code s
    ∧ code ≤ logCode code logs := by
  refine ⟨rfl, ?_⟩
  simp only [attributesCode, logCode, NAGIOS_OK, NAGIOS_WARNING, NAGIOS_CRITICAL]
  refine ⟨?_, ?_, ?_, ?_⟩ <;> split_ifs <;> omega

/-- Claim C6: when the log-directory entry at the SMART log address is
zero, `check_smart_log` returns an error count of 0 at once, leaves the
severity code unchanged, and issues no transport read beyond the
directory read itself. -/
theorem c6_log_directory_zero (dir : Nat → Nat) (readLog : Nat → Nat → List smart_log_summary)
    (code : Nat) (hdir : dir ATA_LOG_ADDRESS_SMART = 0) :
    check_smart_log dir readLog code 0
      = (code, 0, [AtaOp.readLog ATA_LOG_ADDRESS_DIRECTORY 1]) := by
  unfold check_smart_log
  simp [hdir]

/-- Witness for C6: an all-zero directory short-circuits the log check. -/
theorem c6_log_directory_zero_witness :
    (fun _ : Nat => (0 : Nat)) ATA_LOG_ADDRESS_SMART = 0
    ∧ check_smart_log (fun _ => 0) (fun _ _ => []) 0 0
        = (0, 0, [AtaOp.readLog ATA_LOG_ADDRESS_DIRECTORY 1]) :=
  ⟨rfl, c6_log_directory_zero (fun _ => 0) (fun _ _ => []) 0 rfl⟩

/-- Claim C8: a slot whose attribute id is 0 is skipped entirely: it
changes none of the four counters and appends nothing to the
performance data. -/
theorem c8_invalid_slot_skipped (critical_thresholds warning_thresholds : SmartThresholdMap)
    (sa : smart_attribute) (sth : smart_threshold) (s : CheckState)
    (hid : sa.id = 0) :
    processSlot critical_thresholds warning_thresholds sa sth s = s :=
  processSlot_id_zero critical_thresholds warning_thresholds sa sth s hid

/-- Witness for C8 at a concrete id-0 slot and non-trivial state. -/
theorem c8_invalid_slot_skipped_witness :
    (⟨0, 1, 100, 0, 7, 0⟩ : smart_attribute).id = 0
    ∧ processSlot [(1, 2)] [(3, 4)] ⟨0, 1, 100, 0, 7, 0⟩ ⟨0, 120⟩ ⟨1, 2, 3, 4, "x"⟩
        = ⟨1, 2, 3, 4, "x"⟩ :=
  ⟨rfl, c8_invalid_slot_skipped [(1, 2)] [(3, 4)] _ _ _ rfl⟩

/-- Claim C2: for a slot with a non-zero id, the vendor-threshold check
fires (exactly one of `prdfail`/`advisory` is incremented) if and only if
the normalized value v satisfies 0x00 < v < 0xFE and v <= the positional
vendor threshold (equality failing); in particular a slot whose value is
0x00, 0xFE or 0xFF never fires, whatever the threshold byte. -/
theorem c2_vendor_check (critical_thresholds warning_thresholds : SmartThresholdMap)
    (sa : smart_attribute) (sth : smart_threshold) (s : CheckState)
    (hid : sa.id ≠ 0) :
    ((processSlot critical_thresholds warning_thresholds sa sth s).prdfail
        + (processSlot critical_thresholds warning_thresholds sa sth s).advisory
      = s.prdfail + s.advisory + 1
      ↔ 0x00 < sa.value ∧ sa.value < 0xfe ∧ sa.value ≤ sth.threshold)
    ∧ (sa.value = 0x00 ∨ sa.value = 0xfe ∨ sa.value = 0xff →
        (processSlot critical_thresholds warning_thresholds sa sth s).prdfail
          + (processSlot critical_thresholds warning_thresholds sa sth s).advisory
        = s.prdfail + s.advisory) := by
  rw [processSlot_id_ne_zero _ _ _ _ _ hid]
  simp only [perfStep_prdfail, perfStep_advisory, customStep_prdfail, customStep_advisory,
    vendorStep_sum_prop, mkSmartAttribute_value, mkSmartThreshold_threshold]
  refine ⟨?_, ?_⟩
  · split_ifs with h <;> simp [h]
  · intro hv
    have hnp : ¬ (0 < sa.value ∧ sa.value < 0xfe ∧ sa.value ≤ sth.threshold) := by
      rcases hv with h | h | h <;> omega
    rw [if_neg hnp]
    omega

/-- Witness for C2: id 5, pre-fail flag set, value 10 within the valid
range and below the vendor threshold 20 — the vendor check fires once. -/
theorem c2_vendor_check_witness :
    (processSlot [] [] ⟨5, 1, 10, 0, 3, 0⟩ ⟨5, 20⟩ ⟨0, 0, 0, 0, ""⟩).prdfail
      + (processSlot [] [] ⟨5, 1, 10, 0, 3, 0⟩ ⟨5, 20⟩ ⟨0, 0, 0, 0, ""⟩).advisory
      = 0 + 0 + 1 :=
  (c2_vendor_check [] [] ⟨5, 1, 10, 0, 3, 0⟩ ⟨5, 20⟩ ⟨0, 0, 0, 0, ""⟩
    (by decide)).1.mpr (by decide)

/-- Counterexample to claim C4 as stated: the critical override map binds
id 1 to the level 0 — the id is present in the map and the masked raw
value 7 is >= the level 0 — yet the critical counter is not incremented,
because the code treats a looked-up level of 0 as no override. -/
theorem c4_counterexample :
    List.lookup 1 ([(1, 0)] : SmartThresholdMap) = some 0
    ∧ (mkSmartAttribute ⟨1, 0, 50, 0, 7, 0⟩).raw ≥ 0
    ∧ ¬ ((processSlot [(1, 0)] [] ⟨1, 0, 50, 0, 7, 0⟩ ⟨1, 0⟩ ⟨0, 0, 0, 0, ""⟩).crit
          = 0 + 1) := by
  refine ⟨rfl, Nat.zero_le _, ?_⟩
  decide

/-- Claim C4 as amended: for every slot with a valid id, independently of
the vendor check: if the critical override map yields a NON-ZERO level for
the id and the masked raw value is >= it, the critical counter is
incremented; otherwise, if the warning map yields a non-zero level and the
raw value is >= it, the warning counter is incremented; when both match,
only the critical counter is incremented (critical checked first,
short-circuiting warning). -/
theorem c4_custom_overrides (critical_thresholds warning_thresholds : SmartThresholdMap)
    (sa : smart_attribute) (sth : smart_threshold) (s : CheckState)
    (hid : sa.id ≠ 0) :
    ((critical_thresholds.get sa.id ≠ 0
        ∧ (mkSmartAttribute sa).raw ≥ critical_thresholds.get sa.id) →
      (processSlot critical_thresholds warning_thresholds sa sth s).crit = s.crit + 1
      ∧ (processSlot critical_thresholds warning_thresholds sa sth s).warn = s.warn)
    ∧ (¬ (critical_thresholds.get sa.id ≠ 0
        ∧ (mkSmartAttribute sa).raw ≥ critical_thresholds.get sa.id) →
       (warning_thresholds.get sa.id ≠ 0
        ∧ (mkSmartAttribute sa).raw ≥ warning_thresholds.get sa.id) →
      (processSlot critical_thresholds warning_thresholds sa sth s).warn = s.warn + 1
      ∧ (processSlot critical_thresholds warning_thresholds sa sth s).crit = s.crit)
    ∧ (¬ (critical_thresholds.get sa.id ≠ 0
        ∧ (mkSmartAttribute sa).raw ≥ critical_thresholds.get sa.id) →
       ¬ (warning_thresholds.get sa.id ≠ 0
        ∧ (mkSmartAttribute sa).raw ≥ warning_thresholds.get sa.id) →
      (processSlot critical_thresholds warning_thresholds sa sth s).crit = s.crit
      ∧ (processSlot critical_thresholds warning_thresholds sa sth s).warn = s.warn) := by
  rw [processSlot_id_ne_zero _ _ _ _ _ hid]
  simp only [perfStep_crit, perfStep_warn]
  obtain ⟨hc, hw, hn⟩ := customStep_cases (critical_thresholds.get sa.id)
    (warning_thresholds.get sa.id) (mkSmartAttribute sa)
    (vendorStep (mkSmartAttribute sa) (mkSmartThreshold sth) s)
  refine ⟨fun h => ?_, fun h1 h2 => ?_, fun h1 h2 => ?_⟩
  · rw [hc h]
    simp [vendorStep_crit, vendorStep_warn]
  · rw [hw h1 h2]
    simp [vendorStep_crit, vendorStep_warn]
  · rw [hn h1 h2]
    simp [vendorStep_crit, vendorStep_warn]

/-- Witness for the amended C4: critical override 5 and warning override 3
both matched by raw value 9 — only the critical counter moves. -/
theorem c4_custom_overrides_witness :
    (processSlot [(2, 5)] [(2, 3)] ⟨2, 0, 50, 0, 9, 0⟩ ⟨2, 0⟩ ⟨0, 0, 0, 0, ""⟩).crit = 0 + 1
    ∧ (processSlot [(2, 5)] [(2, 3)] ⟨2, 0, 50, 0, 9, 0⟩ ⟨2, 0⟩ ⟨0, 0, 0, 0, ""⟩).warn = 0 :=
  (c4_custom_overrides [(2, 5)] [(2, 3)] ⟨2, 0, 50, 0, 9, 0⟩ ⟨2, 0⟩ ⟨0, 0, 0, 0, ""⟩
    (by decide)).1 (by decide)

/-- Claim C10: an operator override level of 0 behaves exactly like an
absent override, per map: if the critical map binds the slot's id to 0 or
does not contain it, the critical counter is never incremented, whatever
the raw value and whatever the warning map holds; symmetrically for the
warning map and counter; and the slot evaluation depends on each map only
through its defaulted lookup at the slot's id, so a 0-valued binding is
indistinguishable from a missing one. -/
theorem c10_zero_override (critical_thresholds warning_thresholds : SmartThresholdMap)
    (sa : smart_attribute) (sth : smart_threshold) (s : CheckState) :
    ((List.lookup sa.id critical_thresholds = some 0
        ∨ List.lookup sa.id critical_thresholds = none) →
      (processSlot critical_thresholds warning_thresholds sa sth s).crit = s.crit)
    ∧ ((List.lookup sa.id warning_thresholds = some 0
        ∨ List.lookup sa.id warning_thresholds = none) →
      (processSlot critical_thresholds warning_thresholds sa sth s).warn = s.warn)
    ∧ (∀ ct2 wt2 : SmartThresholdMap,
        critical_thresholds.get sa.id = ct2.get sa.id →
        warning_thresholds.get sa.id = wt2.get sa.id →
        processSlot critical_thresholds warning_thresholds sa sth s
          = processSlot ct2 wt2 sa sth s) := by
  by_cases hid : sa.id = 0
  · rw [processSlot_id_zero _ _ _ _ _ hid]
    refine ⟨fun _ => rfl, fun _ => rfl, fun ct2 wt2 _ _ => ?_⟩
    rw [processSlot_id_zero _ _ _ _ _ hid]
  · refine ⟨fun hct => ?_, fun hwt => ?_, fun ct2 wt2 hceq hweq => ?_⟩
    · have hc0 : critical_thresholds.get sa.id = 0 := by
        unfold SmartThresholdMap.get; rcases hct with h | h <;> rw [h] <;> rfl
      rw [processSlot_id_ne_zero _ _ _ _ _ hid, hc0]
      simp [perfStep_crit, customStep_crit_zero, vendorStep_crit]
    · have hw0 : warning_thresholds.get sa.id = 0 := by
        unfold SmartThresholdMap.get; rcases hwt with h | h <;> rw [h] <;> rfl
      rw [processSlot_id_ne_zero _ _ _ _ _ hid, hw0]
      simp [perfStep_warn, customStep_warn_zero, vendorStep_warn]
    · rw [processSlot_id_ne_zero _ _ _ _ _ hid, processSlot_id_ne_zero _ _ _ _ _ hid,
        hceq, hweq]

/-- Witness for C10: a 0-level critical override on id 1 next to a live
warning override (level 3, raw value 7): the critical counter stays put
while the warning counter moves, and replacing the 0-level binding by a
missing one gives the identical slot evaluation. -/
theorem c10_zero_override_witness :
    (List.lookup 1 ([(1, 0)] : SmartThresholdMap) = some 0
      ∨ List.lookup 1 ([(1, 0)] : SmartThresholdMap) = none)
    ∧ (processSlot [(1, 0)] [(1, 3)] ⟨1, 3, 80, 0, 7, 0⟩ ⟨1, 10⟩ ⟨0, 0, 0, 0, ""⟩).crit = 0
    ∧ (processSlot [(1, 0)] [(1, 3)] ⟨1, 3, 80, 0, 7, 0⟩ ⟨1, 10⟩ ⟨0, 0, 0, 0, ""⟩).warn = 0 + 1
    ∧ processSlot [(1, 0)] [(1, 3)] ⟨1, 3, 80, 0, 7, 0⟩ ⟨1, 10⟩ ⟨0, 0, 0, 0, ""⟩
        = processSlot [] [(1, 3)] ⟨1, 3, 80, 0, 7, 0⟩ ⟨1, 10⟩ ⟨0, 0, 0, 0, ""⟩ := by
  have h := c10_zero_override [(1, 0)] [(1, 3)] ⟨1, 3, 80, 0, 7, 0⟩ ⟨1, 10⟩ ⟨0, 0, 0, 0, ""⟩
  exact ⟨Or.inl rfl, h.1 (Or.inl rfl), by decide, h.2.2 [] [(1, 3)] rfl rfl⟩

theorem foldl_log_counts (l : List smart_log_summary) (n : Nat) :
    l.foldl (fun acc su => if su.index = 0 then acc else acc + su.count) n
      = n + validLogCount l := by
  induction l generalizing n with
  | nil => simp [validLogCount]
  | cons su l ih =>
    rw [List.foldl_cons]
    by_cases h : su.index = 0
    · rw [if_pos h, ih]
      have he : validLogCount (su :: l) = validLogCount l := by
        simp [validLogCount, h]
      rw [he]
    · rw [if_neg h, ih]
      have he : validLogCount (su :: l) = su.count + validLogCount l := by
        simp [validLogCount, h]
      rw [he]
      omega

/-- Claim C7: with a non-zero directory entry, the aggregated error count
is the sum of the `count` fields of exactly those summary sectors whose
`index` byte is non-zero, and a non-zero total raises the severity to at
least WARNING but never to CRITICAL on its own. -/
theorem c7_log_aggregation (dir : Nat → Nat) (readLog : Nat → Nat → List smart_log_summary)
    (code : Nat) (hdir : dir ATA_LOG_ADDRESS_SMART ≠ 0) :
    (check_smart_log dir readLog code 0).2.1
      = validLogCount (readLog ATA_LOG_ADDRESS_SMART (dir ATA_LOG_ADDRESS_SMART))
    ∧ (validLogCount (readLog ATA_LOG_ADDRESS_SMART (dir ATA_LOG_ADDRESS_SMART)) ≠ 0 →
        (check_smart_log dir readLog code 0).1 = max code NAGIOS_WARNING)
    ∧ (validLogCount (readLog ATA_LOG_ADDRESS_SMART (dir ATA_LOG_ADDRESS_SMART)) = 0 →
        (check_smart_log dir readLog code 0).1 = code)
    ∧ (validLogCount (readLog ATA_LOG_ADDRESS_SMART (dir ATA_LOG_ADDRESS_SMART)) ≠ 0 →
        NAGIOS_WARNING ≤ (check_smart_log dir readLog code 0).1)
    ∧ (code < NAGIOS_CRITICAL → (check_smart_log dir readLog code 0).1 < NAGIOS_CRITICAL) := by
  simp only [check_smart_log, logCode]
  rw [if_neg hdir]
  simp only [foldl_log_counts, Nat.zero_add]
  simp only [NAGIOS_WARNING, NAGIOS_CRITICAL]
  refine ⟨by trivial, ?_, ?_, ?_, ?_⟩ <;> split_ifs <;> intros <;> simp_all

/-- Witness for C7: directory entry 2, one written sector (index 1,
count 3) and one never-written sector (index 0, count 5): total 3,
severity raised from OK to WARNING. -/
theorem c7_log_aggregation_witness :
    (check_smart_log (fun _ => 2) (fun _ _ => [⟨1, 1, 3⟩, ⟨1, 0, 5⟩]) 0 0).2.1
      = validLogCount [⟨1, 1, 3⟩, ⟨1, 0, 5⟩]
    ∧ validLogCount ([⟨1, 1, 3⟩, ⟨1, 0, 5⟩] : List smart_log_summary) = 3
    ∧ (check_smart_log (fun _ => 2) (fun _ _ => [⟨1, 1, 3⟩, ⟨1, 0, 5⟩]) 0 0).1 = max 0 NAGIOS_WARNING := by
  have h := c7_log_aggregation (fun _ => 2) (fun _ _ => [⟨1, 1, 3⟩, ⟨1, 0, 5⟩]) 0 (by decide)
  exact ⟨h.1, by decide, h.2.1 (by decide)⟩

/-- Claim C9: when the IDENTIFY pass-through succeeds and word 82 bit 0 is
clear (SMART feature unsupported), the run ends at once with the OK
outcome, having issued exactly the one IDENTIFY transport command. -/
theorem c9_smart_unsupported (critical_thresholds warning_thresholds : SmartThresholdMap)
    (dev : Device) (hok : dev.identify_ok = true)
    (hbit : dev.identify 82 &&& 0x01 = 0) :
    runCheck critical_thresholds warning_thresholds dev = (NAGIOS_OK, [AtaOp.identify]) := by
  have hx : ((dev.identify 82) ^^^ 0xffff) &&& 0x01 ≠ 0 := by
    have h2 : dev.identify 82 % 2 = 0 := by
      rw [← Nat.and_one_is_mod]
      exact hbit
    have ht : ((dev.identify 82) ^^^ 0xffff).testBit 0 = true := by
      rw [Nat.testBit_xor]
      simp [Nat.testBit_zero, h2]
    intro h0
    rw [Nat.and_one_is_mod] at h0
    rw [Nat.testBit_zero, h0] at ht
    simp at ht
  have hok' : (!dev.identify_ok) = false := by rw [hok]; rfl
  simp only [runCheck, hok']
  rw [if_neg Bool.false_ne_true, if_pos hx]

/-- Witness for C9 on a concrete device whose IDENTIFY word 82 is 0. -/
theorem c9_smart_unsupported_witness :
    (⟨true, fun _ => 0, [], [], fun _ => 0, fun _ _ => []⟩ : Device).identify_ok = true
    ∧ (⟨true, fun _ => 0, [], [], fun _ => 0, fun _ _ => []⟩ : Device).identify 82 &&& 0x01 = 0
    ∧ runCheck [] [] ⟨true, fun _ => 0, [], [], fun _ => 0, fun _ _ => []⟩
        = (NAGIOS_OK, [AtaOp.identify]) :=
  ⟨rfl, rfl, c9_smart_unsupported [] [] _ rfl rfl⟩

theorem join_cons (s : String) (l : List String) :
    String.join (s :: l) = s ++ String.join l := by
  apply String.ext
  simp

/-- For a used slot, the loop body appends exactly the spec-side entry to
the performance data. -/
theorem processSlot_perfdata_of_ne (critical_thresholds warning_thresholds : SmartThresholdMap)
    (sa : smart_attribute) (sth : smart_threshold) (s : CheckState) (hid : sa.id ≠ 0) :
    (processSlot critical_thresholds warning_thresholds sa sth s).perfdata
      = s.perfdata
        ++ (specPerfEntry critical_thresholds warning_thresholds (sa, sth)).getD "" := by
  rw [processSlot_id_ne_zero _ _ _ _ _ hid]
  simp only [perfStep, customStep_perfdata, vendorStep_perfdata, specPerfEntry,
    smartAttributeToString, mkSmartAttribute_id, mkSmartAttribute_value]
  rw [if_neg hid]
  simp [String.append_assoc, bne_iff_ne]

/-- Folding the slot loop concatenates the spec-side entries of exactly
the valid slots, in order. -/
theorem foldl_processSlot_perfdata (critical_thresholds warning_thresholds : SmartThresholdMap)
    (l : List (smart_attribute × smart_threshold)) (s : CheckState) :
    (l.foldl (fun s p => processSlot critical_thresholds warning_thresholds p.1 p.2 s) s).perfdata
      = s.perfdata
        ++ String.join (l.filterMap (specPerfEntry critical_thresholds warning_thresholds)) := by
  induction l generalizing s with
  | nil => simp [String.join]
  | cons p l ih =>
    rw [List.foldl_cons, ih, List.filterMap_cons]
    by_cases h : p.1.id = 0
    · rw [processSlot_id_zero _ _ _ _ _ h]
      simp [specPerfEntry, h]
    · rw [processSlot_perfdata_of_ne _ _ _ _ _ h]
      rcases he : specPerfEntry critical_thresholds warning_thresholds p with _ | e
      · exfalso
        unfold specPerfEntry at he
        rw [if_neg h] at he
        exact Option.noConfusion he
      · simp [join_cons, String.append_assoc]

/-- Counterexample to claim C5 as stated: the program renders the counter
block as `prdfail <n>, advisory <n>, critical <n>, warning <n>, logs <n>`,
not `predicted fails <n>, advisories <n>, …`: at the all-zero input the
produced line is shown in full and the claimed counter text does not occur
in it. -/
theorem c5_counterexample :
    reportLine 0 0 0 0 0 0 "" = "OK: prdfail 0, advisory 0, critical 0, warning 0, logs 0 |"
    ∧ ¬ List.IsInfix (specCounterText 0 0 0 0 0).data (reportLine 0 0 0 0 0 0 "").data := by
  constructor
  · rfl
  · decide

/-- Claim C5 as amended: the report line is a severity word, `": "`, the
counters rendered as `prdfail <n>, advisory <n>, critical <n>,
warning <n>, logs <n>`, then `" |"` followed by the performance-data
block holding exactly one entry per valid (id != 0) slot, each formatted
as `<id>_<name>=<rawValue>;<warnThreshold|empty>;<critThreshold|empty>;;`
with an override threshold field left empty when no override applies to
that id (the program prints a field exactly when the looked-up level is
non-zero, so an absent override always leaves it empty). -/
theorem c5_report_format (critical_thresholds warning_thresholds : SmartThresholdMap)
    (sd : List smart_attribute) (st : List smart_threshold) (code logs : Nat) :
    reportLine
        (check_smart_attributes critical_thresholds warning_thresholds sd st code ⟨0, 0, 0, 0, ""⟩).1
        (check_smart_attributes critical_thresholds warning_thresholds sd st code ⟨0, 0, 0, 0, ""⟩).2.prdfail
        (check_smart_attributes critical_thresholds warning_thresholds sd st code ⟨0, 0, 0, 0, ""⟩).2.advisory
        (check_smart_attributes critical_thresholds warning_thresholds sd st code ⟨0, 0, 0, 0, ""⟩).2.crit
        (check_smart_attributes critical_thresholds warning_thresholds sd st code ⟨0, 0, 0, 0, ""⟩).2.warn
        logs
        (check_smart_attributes critical_thresholds warning_thresholds sd st code ⟨0, 0, 0, 0, ""⟩).2.perfdata
      = statusNames.getD
          (check_smart_attributes critical_thresholds warning_thresholds sd st code ⟨0, 0, 0, 0, ""⟩).1 ""
        ++ ": prdfail "
        ++ toString (check_smart_attributes critical_thresholds warning_thresholds sd st code ⟨0, 0, 0, 0, ""⟩).2.prdfail
        ++ ", advisory "
        ++ toString (check_smart_attributes critical_thresholds warning_thresholds sd st code ⟨0, 0, 0, 0, ""⟩).2.advisory
        ++ ", critical "
        ++ toString (check_smart_attributes critical_thresholds warning_thresholds sd st code ⟨0, 0, 0, 0, ""⟩).2.crit
        ++ ", warning "
        ++ toString (check_smart_attributes critical_thresholds warning_thresholds sd st code ⟨0, 0, 0, 0, ""⟩).2.warn
        ++ ", logs " ++ toString logs
        ++ " |"
        ++ String.join
            ((sd.zip st).filterMap (specPerfEntry critical_thresholds warning_thresholds)) := by
  have hperf : (check_smart_attributes critical_thresholds warning_thresholds
        sd st code ⟨0, 0, 0, 0, ""⟩).2.perfdata
      = String.join
          ((sd.zip st).filterMap (specPerfEntry critical_thresholds warning_thresholds)) := by
    simpa [check_smart_attributes] using
      foldl_processSlot_perfdata critical_thresholds warning_thresholds (sd.zip st) ⟨0, 0, 0, 0, ""⟩
  simp only [reportLine, hperf]

end CheckScsiSmart
